import Mathlib

/-!
# Verification of `obspy.core/trunk/obspy/core/scripts/runtests.py`

A shallow embedding of the ObsPy test-suite launcher script.  The script
resolves module references into test-suite lookup names, loads and runs the
suites, and (on request) assembles a report of version, dependency and
platform metadata together with the run's outcome maps, attempting a
best-effort delivery to a report server.

Interaction with the outside world (dynamic import, `unittest` loading and
running, `platform` queries, wall-clock time, the RPC call, the environment
variable) is modelled by explicit oracle parameters: a fallible Python call
wrapped in `try`/`except` becomes an `Option`-valued oracle, and a Python
`dict` becomes an insertion-ordered association list with overwrite-on-update
semantics.
-/

set_option linter.unusedVariables false

namespace Runtests

/-- `DEFAULT_MODULES` from the script. -/
def DEFAULT_MODULES : List String :=
  ["core", "gse2", "mseed", "sac", "wav", "signal", "imaging",
   "xseed", "seisan", "sh"]

/-- `ALL_MODULES = DEFAULT_MODULES + ['fissures', 'arclink', 'seishub']`. -/
def ALL_MODULES : List String :=
  DEFAULT_MODULES ++ ["fissures", "arclink", "seishub"]

/-- `DEPENDENCIES` from the script. -/
def DEPENDENCIES : List String :=
  ["numpy", "scipy", "matplotlib", "lxml.etree", "_omnipy"]

/-- The ten attribute names queried on the `platform` module in
`_createReport`. -/
def PLATFORM_FUNCS : List String :=
  ["system", "node", "release", "version", "machine",
   "processor", "python_version", "python_implementation",
   "python_compiler", "architecture"]

/-- `'obspy.%s.tests.suite' % d`: the canonical suite-lookup name for a
module shortcut. -/
def canonicalName (d : String) : String :=
  "obspy." ++ d ++ ".tests.suite"

/-- The name-resolution phase of `_getSuite`: an empty `tests` list expands
the default module set; otherwise the loop appends, for each reference, its
shortcut expansion when it is a default-module name, else the reference
verbatim. -/
def resolveNames (tests : List String) : List String :=
  if tests = [] then
    DEFAULT_MODULES.map canonicalName
  else
    tests.foldl
      (fun names test =>
        names ++ [if test ∈ DEFAULT_MODULES then canonicalName test else test])
      []

/-- The loading loop of `_getSuite`: `ut.loadTestsFromName(name, None)` is
the oracle `loader`; a raised exception (`loader name = none`) is caught,
only a diagnostic is printed, and the loop continues with the next name. -/
def loadSuites {α : Type} (loader : String → Option α) : List String → List α
  | [] => []
  | name :: rest =>
    match loader name with
    | some s => s :: loadSuites loader rest
    | none => loadSuites loader rest

/-- `_getSuite(verbosity, tests)`: resolve the names and load each one,
skipping failures.  `verbosity` only gates the printed diagnostic, which the
embedding does not model; the returned `suiteClass(suites)` wrapper is
represented by the list of successfully loaded suites in encounter order. -/
def getSuite {α : Type} (loader : String → Option α) (verbosity : Nat)
    (tests : List String) : List α :=
  loadSuites loader (resolveNames tests)

/-- A Python `dict` with string keys: an insertion-ordered association list.
Assignment overwrites the value at an existing key and appends a new key. -/
abbrev Dict (β : Type) : Type := List (String × β)

/-- `d[k] = v` on a Python dict: overwrite the value at an existing key in
place, append a new key at the end. -/
def dictInsert {β : Type} : Dict β → String → β → Dict β
  | [], k, v => [(k, v)]
  | p :: d, k, v => if p.1 == k then (k, v) :: d else p :: dictInsert d k v

/-- `d.get(k)` on a Python dict. -/
def dictGet {β : Type} : Dict β → String → Option β
  | [], _ => none
  | p :: d, k => if p.1 == k then some p.2 else dictGet d k

/-- The list of keys of a dict, in insertion order. -/
def dictKeys {β : Type} (d : Dict β) : List String :=
  List.map Prod.fst d

/-- An imported Python module as `_createReport` observes it: reading
`__version__` or calling `coreVersion()` may itself raise, hence the
`Option` fields. -/
structure PyModule where
  version : Option String
  coreVersion : Option String

/-- The value returned by one `getattr(platform, func)()` call: either a
plain string or a tuple, of which only the first component is kept. -/
inductive PlatVal where
  | str : String → PlatVal
  | tup : String → List String → PlatVal
deriving DecidableEq

/-- `if isinstance(temp, tuple): temp = temp[0]`. -/
def reducePlat : PlatVal → String
  | PlatVal.str s => s
  | PlatVal.tup first _ => first

/-- The aggregated result object `ttr` of the `unittest` text runner, as
`_createReport` reads it: `errors` and `failures` are lists of
`(str(method), text)` pairs, and `wasSuccessful()` is a boolean. -/
structure TestResult where
  errors : List (String × String)
  failures : List (String × String)
  wasSuccessful : Bool
deriving DecidableEq

/-- A value stored at a top-level key of the report record. -/
inductive RVal where
  | timestamp : Nat → RVal
  | dict : Dict String → RVal
deriving DecidableEq

/-- `mod = __import__('obspy.' + module, fromlist='obspy');
mod.__version__` — any raised exception yields `none`. -/
def obspyLookup (imp : String → Option PyModule) (module : String) :
    Option String :=
  match imp ("obspy." ++ module) with
  | none => none
  | some mod => mod.version

/-- The dependency-version lookup: `_omnipy` reads `mod.coreVersion()`,
every other dependency reads `mod.__version__`; any raised exception yields
`none`. -/
def depLookup (imp : String → Option PyModule) (module : String) :
    Option String :=
  match imp module with
  | none => none
  | some mod => if module = "_omnipy" then mod.coreVersion else mod.version

/-- The `result['obspy']` loop: one entry per `ALL_MODULES` name, with the
empty string on any lookup failure. -/
def buildObspyVersions (imp : String → Option PyModule) : Dict String :=
  ALL_MODULES.foldl
    (fun d m => dictInsert d m (Option.getD (obspyLookup imp m) "")) []

/-- The `result['dependencies']` loop: one entry per `DEPENDENCIES` name,
with the empty string on any lookup failure. -/
def buildDependencies (imp : String → Option PyModule) : Dict String :=
  DEPENDENCIES.foldl
    (fun d m => dictInsert d m (Option.getD (depLookup imp m) "")) []

/-- The `result['platform']` loop: one entry per `PLATFORM_FUNCS` name,
keeping only the first component of a tuple result and recording the empty
string on failure. -/
def buildPlatform (plat : String → Option PlatVal) : Dict String :=
  PLATFORM_FUNCS.foldl
    (fun d f => dictInsert d f (Option.getD (Option.map reducePlat (plat f)) ""))
    []

/-- Outcome of the report-delivery `try` block: `sent` when `sp.report(...)`
returned, `failed` when the raised exception was caught and the error was
printed locally. -/
inductive DeliveryOutcome where
  | sent : DeliveryOutcome
  | failed : DeliveryOutcome
deriving DecidableEq

/-- `_createReport(ttr)`.  `now` stands for `datetime.datetime.now()`,
`imp` for `__import__`, `plat` for `getattr(platform, func)()`, and `send`
for the `sp.report(...)` RPC call (`true` when the call returns, `false`
when it raises).  Returns the assembled report record and the delivery
outcome.  The in-place fills of nested dicts are modelled by inserting each
finished nested dict; the failures loop writes into `result['errors']`, as
the source does, so the `'errors'` key is overwritten with the extended map
while `'failures'` keeps its initial empty value. -/
def createReport (now : Nat) (imp : String → Option PyModule)
    (plat : String → Option PlatVal) (send : Bool → Dict RVal → Bool)
    (ttr : TestResult) : Dict RVal × DeliveryOutcome :=
  let result : Dict RVal := [("timestamp", RVal.timestamp now)]
  let result := dictInsert result "obspy" (RVal.dict (buildObspyVersions imp))
  let result := dictInsert result "dependencies"
    (RVal.dict (buildDependencies imp))
  let result := dictInsert result "platform" (RVal.dict (buildPlatform plat))
  let errMap := ttr.errors.foldl (fun d p => dictInsert d p.1 p.2) []
  let result := dictInsert result "errors" (RVal.dict errMap)
  let result := dictInsert result "failures" (RVal.dict [])
  let errMap2 := ttr.failures.foldl (fun d p => dictInsert d p.1 p.2) errMap
  let result := dictInsert result "errors" (RVal.dict errMap2)
  let outcome :=
    if send ttr.wasSuccessful result then DeliveryOutcome.sent
    else DeliveryOutcome.failed
  (result, outcome)

/-- What one invocation of `runTests` produces, as far as the embedding
observes it: the runner's aggregated result, the assembled report with its
delivery outcome when a report was requested, and the process exit status
(the script never exits with a test-dependent status). -/
structure RunOutput where
  ttr : TestResult
  report : Option (Dict RVal × DeliveryOutcome)
  exitStatus : Nat

/-- `runTests(verbosity, tests, report)`: build the suite, run it, and
assemble and send a report only when `report` is set.  `runner` stands for
`unittest.TextTestRunner(verbosity=verbosity).run`. -/
def runTests {α : Type} (loader : String → Option α)
    (runner : List α → TestResult) (now : Nat)
    (imp : String → Option PyModule) (plat : String → Option PlatVal)
    (send : Bool → Dict RVal → Bool) (verbosity : Nat)
    (tests : List String) (report : Bool) : RunOutput :=
  let suite := getSuite loader verbosity tests
  let ttr := runner suite
  { ttr := ttr
    report :=
      if report then some (createReport now imp plat send ttr) else none
    exitStatus := 0 }

/-- `main()`: derive the verbosity level from the `-v`/`-q` flags, request a
report when `-r` was given or `OBSPY_REPORT_TEST` is present in the
environment, and run the trailing module references. -/
def main {α : Type} (loader : String → Option α)
    (runner : List α → TestResult) (now : Nat)
    (imp : String → Option PyModule) (plat : String → Option PlatVal)
    (send : Bool → Dict RVal → Bool)
    (optVerbose optQuiet optReport : Bool) (envHasReportVar : Bool)
    (largs : List String) : RunOutput :=
  let verbosity : Nat := if optVerbose then 2 else if optQuiet then 0 else 1
  let report := optReport || envHasReportVar
  runTests loader runner now imp plat send verbosity largs report

/-! ## Dict lemmas -/

theorem dictGet_insert_self {β : Type} (d : Dict β) (k : String) (v : β) :
    dictGet (dictInsert d k v) k = some v := by
  induction d with
  | nil => simp [dictInsert, dictGet]
  | cons p d ih =>
    by_cases hp : (p.1 == k) = true
    · simp [dictInsert, dictGet, hp]
    · simp [dictInsert, dictGet, hp, ih]

theorem dictGet_insert_ne {β : Type} (d : Dict β) (k m : String) (v : β)
    (h : k ≠ m) : dictGet (dictInsert d m v) k = dictGet d k := by
  have hmk : (m == k) = false := beq_eq_false_iff_ne.mpr (Ne.symm h)
  induction d with
  | nil => simp [dictInsert, dictGet, hmk]
  | cons p d ih =>
    by_cases hp : (p.1 == m) = true
    · have hpk : (p.1 == k) = false := by
        rw [eq_of_beq hp]
        exact hmk
      simp [dictInsert, dictGet, hp, hpk, hmk]
    · by_cases hpk : (p.1 == k) = true
      · simp [dictInsert, dictGet, hp, hpk]
      · simp [dictInsert, dictGet, hp, hpk, ih]

theorem dictGet_foldl_insert {β : Type} (f : String → β) :
    ∀ (L : List String) (d0 : Dict β) (k : String),
      dictGet (L.foldl (fun d m => dictInsert d m (f m)) d0) k
        = if k ∈ L then some (f k) else dictGet d0 k := by
  intro L
  induction L with
  | nil =>
    intro d0 k
    simp
  | cons m L ih =>
    intro d0 k
    rw [List.foldl_cons, ih]
    by_cases hk : k ∈ L
    · simp [hk]
    · by_cases hkm : k = m
      · subst hkm
        simp [hk, dictGet_insert_self]
      · simp [hk, hkm, dictGet_insert_ne _ _ _ _ hkm]

/-! ## Resolver lemmas -/

theorem loadSuites_eq_filterMap {α : Type} (loader : String → Option α) :
    ∀ (names : List String), loadSuites loader names = names.filterMap loader := by
  intro names
  induction names with
  | nil => rfl
  | cons n rest ih =>
    unfold loadSuites
    rw [List.filterMap_cons]
    cases loader n <;> simp [ih]

theorem foldl_append_singleton_eq_map {α β : Type} (g : α → β) :
    ∀ (L : List α) (acc : List β),
      L.foldl (fun ns t => ns ++ [g t]) acc = acc ++ L.map g := by
  intro L
  induction L with
  | nil =>
    intro acc
    simp
  | cons t L ih =>
    intro acc
    rw [List.foldl_cons, ih]
    simp

theorem resolveNames_eq_map (tests : List String) (h : tests ≠ []) :
    resolveNames tests
      = tests.map (fun t => if t ∈ DEFAULT_MODULES then canonicalName t else t) := by
  unfold resolveNames
  rw [if_neg h, foldl_append_singleton_eq_map]
  simp

/-! ## Builder lemmas -/

theorem buildObspyVersions_get (imp : String → Option PyModule) (m : String)
    (hm : m ∈ ALL_MODULES) :
    dictGet (buildObspyVersions imp) m
      = some (Option.getD (obspyLookup imp m) "") := by
  unfold buildObspyVersions
  rw [dictGet_foldl_insert]
  simp [hm]

theorem buildDependencies_get (imp : String → Option PyModule) (d : String)
    (hd : d ∈ DEPENDENCIES) :
    dictGet (buildDependencies imp) d
      = some (Option.getD (depLookup imp d) "") := by
  unfold buildDependencies
  rw [dictGet_foldl_insert]
  simp [hd]

theorem buildPlatform_get (plat : String → Option PlatVal) (f : String)
    (hf : f ∈ PLATFORM_FUNCS) :
    dictGet (buildPlatform plat) f
      = some (Option.getD (Option.map reducePlat (plat f)) "") := by
  unfold buildPlatform
  rw [dictGet_foldl_insert]
  simp [hf]

/-! ## Claim theorems -/

/-- **C1** (code bug): the claim says the report carries a distinct
`'failures'` map from each failed test's identifier to its failure text.
The source initialises `result['failures'] = {}` but the subsequent loop
over `ttr.failures` assigns into `result['errors']` instead, so at the
failing input (no errors, one failure `("testA", "failure text")`) the
`'failures'` map stays empty and the failure text lands under `'errors'`. -/
theorem c1_failure_text_misfiled :
    dictGet (createReport 0 (fun _ => none) (fun _ => none) (fun _ _ => true)
        (TestResult.mk [] [("testA", "failure text")] false)).1 "failures"
      = some (RVal.dict []) ∧
    dictGet (createReport 0 (fun _ => none) (fun _ => none) (fun _ _ => true)
        (TestResult.mk [] [("testA", "failure text")] false)).1 "errors"
      = some (RVal.dict [("testA", "failure text")]) :=
  ⟨rfl, rfl⟩

/-- **C2**: a single unloadable reference never prevents any other
reference's suite from loading: every name the loader resolves successfully
contributes its suite to the result, and the result is exactly the list of
successfully loaded suites in encounter order. -/
theorem c2_partial_failure_isolation {α : Type} (loader : String → Option α)
    (verbosity : Nat) (tests : List String) (n : String) (s : α)
    (hn : n ∈ resolveNames tests) (hs : loader n = some s) :
    s ∈ getSuite loader verbosity tests ∧
    getSuite loader verbosity tests = (resolveNames tests).filterMap loader := by
  have hfm : getSuite loader verbosity tests
      = (resolveNames tests).filterMap loader :=
    loadSuites_eq_filterMap loader (resolveNames tests)
  refine ⟨?_, hfm⟩
  rw [hfm]
  exact List.mem_filterMap.mpr ⟨n, hn, hs⟩

/-- Witness for **C2**: with three references of which the first fails to
load, the last reference's suite is still loaded and the result lists the
two successful suites in order. -/
theorem c2_partial_failure_isolation_witness :
    ("obspy.other.tests.suite"
        ∈ resolveNames ["obspy.bad.tests.suite", "mseed",
            "obspy.other.tests.suite"]) ∧
    ((fun name => if name = "obspy.bad.tests.suite" then (none : Option String)
        else some name) "obspy.other.tests.suite"
      = some "obspy.other.tests.suite") ∧
    (("obspy.other.tests.suite" ∈ getSuite
        (fun name => if name = "obspy.bad.tests.suite" then (none : Option String)
          else some name)
        1 ["obspy.bad.tests.suite", "mseed", "obspy.other.tests.suite"]) ∧
      getSuite
          (fun name => if name = "obspy.bad.tests.suite" then (none : Option String)
            else some name)
          1 ["obspy.bad.tests.suite", "mseed", "obspy.other.tests.suite"]
        = (resolveNames ["obspy.bad.tests.suite", "mseed",
            "obspy.other.tests.suite"]).filterMap
            (fun name => if name = "obspy.bad.tests.suite" then (none : Option String)
              else some name)) :=
  ⟨by decide, by decide,
    c2_partial_failure_isolation
      (fun name => if name = "obspy.bad.tests.suite" then (none : Option String)
        else some name)
      1 ["obspy.bad.tests.suite", "mseed", "obspy.other.tests.suite"]
      "obspy.other.tests.suite" "obspy.other.tests.suite"
      (by decide) (by decide)⟩

/-- **C3**: an empty module-reference list expands to exactly one canonical
suite-lookup name per default module, in the declared order of
`DEFAULT_MODULES`. -/
theorem c3_empty_input_expands_defaults :
    resolveNames [] = DEFAULT_MODULES.map canonicalName ∧
    resolveNames [] =
      ["obspy.core.tests.suite", "obspy.gse2.tests.suite",
       "obspy.mseed.tests.suite", "obspy.sac.tests.suite",
       "obspy.wav.tests.suite", "obspy.signal.tests.suite",
       "obspy.imaging.tests.suite", "obspy.xseed.tests.suite",
       "obspy.seisan.tests.suite", "obspy.sh.tests.suite"] :=
  ⟨rfl, rfl⟩

/-- **C4**: on a non-empty reference list, each reference equal to a
default-module shortcut is replaced by its canonical lookup path and every
other reference passes through unchanged, in the order given. -/
theorem c4_shortcut_expansion (tests : List String) (h : tests ≠ []) :
    resolveNames tests =
      tests.map (fun t => if t ∈ DEFAULT_MODULES then canonicalName t else t) :=
  resolveNames_eq_map tests h

/-- Witness for **C4**: the shortcut `mseed` expands while a qualified test
name passes through verbatim. -/
theorem c4_shortcut_expansion_witness :
    (["mseed", "obspy.core.tests.test_stats"] : List String) ≠ [] ∧
    resolveNames ["mseed", "obspy.core.tests.test_stats"] =
      List.map (fun t => if t ∈ DEFAULT_MODULES then canonicalName t else t)
        ["mseed", "obspy.core.tests.test_stats"] :=
  ⟨by decide, c4_shortcut_expansion _ (by decide)⟩

/-- **C5**: every metadata field whose lookup fails is recorded in the
report with the empty string as its value.  The three metadata sub-maps are
present in the assembled report, and each field stands on its own: for any
single component-version, dependency-version or platform field, if that
field's own lookup fails its key is bound to `""`, and the key is present
whether or not the lookup fails — the failure never escapes report
assembly.  No clause assumes anything about the other categories'
lookups. -/
theorem c5_failed_lookup_empty_string (now : Nat)
    (imp : String → Option PyModule) (plat : String → Option PlatVal)
    (send : Bool → Dict RVal → Bool) (ttr : TestResult) (m d f : String) :
    dictGet (createReport now imp plat send ttr).1 "obspy"
        = some (RVal.dict (buildObspyVersions imp)) ∧
    (m ∈ ALL_MODULES → obspyLookup imp m = none →
        dictGet (buildObspyVersions imp) m = some "") ∧
    (m ∈ ALL_MODULES → (dictGet (buildObspyVersions imp) m).isSome = true) ∧
    dictGet (createReport now imp plat send ttr).1 "dependencies"
        = some (RVal.dict (buildDependencies imp)) ∧
    (d ∈ DEPENDENCIES → depLookup imp d = none →
        dictGet (buildDependencies imp) d = some "") ∧
    (d ∈ DEPENDENCIES → (dictGet (buildDependencies imp) d).isSome = true) ∧
    dictGet (createReport now imp plat send ttr).1 "platform"
        = some (RVal.dict (buildPlatform plat)) ∧
    (f ∈ PLATFORM_FUNCS → plat f = none →
        dictGet (buildPlatform plat) f = some "") ∧
    (f ∈ PLATFORM_FUNCS → (dictGet (buildPlatform plat) f).isSome = true) := by
  refine ⟨rfl, ?_, ?_, rfl, ?_, ?_, rfl, ?_, ?_⟩
  · intro hm hmf
    rw [buildObspyVersions_get imp m hm, hmf]
    rfl
  · intro hm
    rw [buildObspyVersions_get imp m hm]
    rfl
  · intro hd hdf
    rw [buildDependencies_get imp d hd, hdf]
    rfl
  · intro hd
    rw [buildDependencies_get imp d hd]
    rfl
  · intro hf hff
    rw [buildPlatform_get plat f hf, hff]
    rfl
  · intro hf
    rw [buildPlatform_get plat f hf]
    rfl

/-- Witness for **C5**: with an import oracle under which the obspy module
`fissures` fails to import while every third-party dependency resolves, and
a platform oracle failing only at `processor`, the failing module field and
the failing platform field are recorded as `""` while the dependency field
carries its looked-up version — each field is settled by its own lookup
alone. -/
theorem c5_failed_lookup_empty_string_witness :
    ("fissures" ∈ ALL_MODULES) ∧
    obspyLookup
        (fun nm => if nm = "obspy.fissures" then none
          else some (PyModule.mk (some "9.9") (some "8.8"))) "fissures" = none ∧
    dictGet (buildObspyVersions
        (fun nm => if nm = "obspy.fissures" then none
          else some (PyModule.mk (some "9.9") (some "8.8")))) "fissures"
      = some "" ∧
    depLookup
        (fun nm => if nm = "obspy.fissures" then none
          else some (PyModule.mk (some "9.9") (some "8.8"))) "numpy"
      = some "9.9" ∧
    dictGet (buildDependencies
        (fun nm => if nm = "obspy.fissures" then none
          else some (PyModule.mk (some "9.9") (some "8.8")))) "numpy"
      = some "9.9" ∧
    ("processor" ∈ PLATFORM_FUNCS) ∧
    (fun g => if g = "processor" then (none : Option PlatVal)
        else some (PlatVal.str "x")) "processor" = none ∧
    dictGet (buildPlatform
        (fun g => if g = "processor" then (none : Option PlatVal)
          else some (PlatVal.str "x"))) "processor" = some "" := by
  have h := c5_failed_lookup_empty_string 0
    (fun nm => if nm = "obspy.fissures" then none
      else some (PyModule.mk (some "9.9") (some "8.8")))
    (fun g => if g = "processor" then (none : Option PlatVal)
      else some (PlatVal.str "x"))
    (fun _ _ => true) (TestResult.mk [] [] true)
    "fissures" "numpy" "processor"
  exact ⟨by decide, rfl, h.2.1 (by decide) rfl, rfl, by decide, by decide,
    rfl, h.2.2.2.2.2.2.2.1 (by decide) rfl⟩

/-- **C6**: the delivery oracle never influences the run's aggregated
result or the process exit status: two runs differing only in the delivery
oracle have the same `ttr` and the same (zero) exit status, the success
flag is exactly the runner's verdict on the loaded suite, and a delivery
call that raises is caught and recorded as a locally reported failure. -/
theorem c6_delivery_failure_harmless {α : Type} (loader : String → Option α)
    (runner : List α → TestResult) (now : Nat)
    (imp : String → Option PyModule) (plat : String → Option PlatVal)
    (send1 send2 : Bool → Dict RVal → Bool) (verbosity : Nat)
    (tests : List String) (report : Bool) :
    (runTests loader runner now imp plat send1 verbosity tests report).ttr
      = (runTests loader runner now imp plat send2 verbosity tests report).ttr ∧
    (runTests loader runner now imp plat send1 verbosity tests report).ttr.wasSuccessful
      = (runner (getSuite loader verbosity tests)).wasSuccessful ∧
    (runTests loader runner now imp plat send1 verbosity tests report).exitStatus = 0 ∧
    (runTests loader runner now imp plat send2 verbosity tests report).exitStatus = 0 ∧
    (createReport now imp plat (fun _ _ => false)
        (runner (getSuite loader verbosity tests))).2 = DeliveryOutcome.failed :=
  ⟨rfl, rfl, rfl, rfl, rfl⟩

/-- **C7**: whatever the oracles return, the assembled report record has
exactly the four informational keys plus the two outcome-map keys, and no
others. -/
theorem c7_report_top_level_keys (now : Nat) (imp : String → Option PyModule)
    (plat : String → Option PlatVal) (send : Bool → Dict RVal → Bool)
    (ttr : TestResult) :
    dictKeys (createReport now imp plat send ttr).1
      = ["timestamp", "obspy", "dependencies", "platform", "errors", "failures"] :=
  rfl

/-- **C8**: the platform sub-map answers each of the ten fixed queries with
the query's result, reduced to its first component when the result is a
tuple and to the empty string when the query fails. -/
theorem c8_platform_queries (plat : String → Option PlatVal) (f : String)
    (hf : f ∈ PLATFORM_FUNCS) :
    PLATFORM_FUNCS.length = 10 ∧
    dictGet (buildPlatform plat) f
      = some (match plat f with
              | none => ""
              | some (PlatVal.str s) => s
              | some (PlatVal.tup first rest) => first) := by
  refine ⟨rfl, ?_⟩
  rw [buildPlatform_get plat f hf]
  cases hp : plat f with
  | none => rfl
  | some t => cases t <;> rfl

/-- Witness for **C8**: a platform oracle answering `architecture` with the
tuple `("64bit", "ELF")` is recorded as `"64bit"`. -/
theorem c8_platform_queries_witness :
    ("architecture" ∈ PLATFORM_FUNCS) ∧
    (PLATFORM_FUNCS.length = 10 ∧
      dictGet (buildPlatform
          (fun g => if g = "architecture"
            then some (PlatVal.tup "64bit" ["ELF"]) else none)) "architecture"
        = some (match (fun g => if g = "architecture"
            then some (PlatVal.tup "64bit" ["ELF"]) else none) "architecture" with
                | none => ""
                | some (PlatVal.str s) => s
                | some (PlatVal.tup first rest) => first)) :=
  ⟨by decide, c8_platform_queries _ "architecture" (by decide)⟩

/-- **C9**: `main` assembles and attempts to deliver a report exactly when
the `-r` flag was given or the `OBSPY_REPORT_TEST` environment variable is
present; otherwise no report is assembled. -/
theorem c9_report_iff_flag_or_env {α : Type} (loader : String → Option α)
    (runner : List α → TestResult) (now : Nat)
    (imp : String → Option PyModule) (plat : String → Option PlatVal)
    (send : Bool → Dict RVal → Bool)
    (optVerbose optQuiet optReport envHasReportVar : Bool)
    (largs : List String) :
    (main loader runner now imp plat send optVerbose optQuiet optReport
        envHasReportVar largs).report.isSome = (optReport || envHasReportVar) := by
  cases optReport <;> cases envHasReportVar <;> rfl

/-- **C10**: in every assembled report the `'failures'` map is empty, and
the `'errors'` map is the fold of the failure texts over the error texts,
where inserting at an already-present key overwrites the stored text. -/
theorem c10_failures_merged_into_errors (now : Nat)
    (imp : String → Option PyModule) (plat : String → Option PlatVal)
    (send : Bool → Dict RVal → Bool) (ttr : TestResult) :
    dictGet (createReport now imp plat send ttr).1 "failures"
      = some (RVal.dict []) ∧
    dictGet (createReport now imp plat send ttr).1 "errors"
      = some (RVal.dict (ttr.failures.foldl (fun d p => dictInsert d p.1 p.2)
          (ttr.errors.foldl (fun d p => dictInsert d p.1 p.2) []))) ∧
    (∀ (d : Dict String) (k v : String), dictGet (dictInsert d k v) k = some v) :=
  ⟨rfl, rfl, fun d k v => dictGet_insert_self d k v⟩

end Runtests
